import Mathlib

set_option maxHeartbeats 1000000
set_option maxRecDepth 8000

/-!
Shallow embedding of the recording session lifecycle manager of
src/ScreenRecorder/main.js: the module-level mutable state
(isRecording, recordingProcess, currentRecordingPath, originalRecordingPath,
timelineAdded, stopRecording.forceKillTimeout), the camera fallback ladder in
startRecording/attemptRecording, the stop/force-kill handling in stopRecording,
the completion events sent over the recording:completed channel, and the pure
helpers (camera-name cleaning, audio-device naming, region validation,
per-attempt output paths, fallback command strings).

Modelling conventions:
- JavaScript strings are Lean Strings; `String.prototype.trim`,
  `toLowerCase`, `includes` and global character-class replacement are
  embedded as explicit list-of-char functions below.
- Output paths are kept at the component level (directory, base name,
  extension), matching the decomposition the source itself performs with
  path.dirname / path.basename / path.extname; path.join is dir ++ "/" ++ name.
- The file system is an environment parameter fsz : String -> Option Nat
  giving the size of an existing file (fs.existsSync / fs.statSync.size);
  none models a missing file (statSync throwing).
- Asynchronous callbacks (process close, process error, stderr data,
  setTimeout retries and the force-kill timeout, the getBestAudioDevice
  promise resolution) are events of an inductive Ev type consumed by the
  step function stepEv; each event is processed atomically, matching the
  single-threaded JavaScript event loop.
- addRecordingToTimeline is an opaque collaborator; its resolved value is an
  environment parameter (TimelineResult), and where the source installs a
  .catch handler the outcome is an Except String TimelineResult.
- mainWindow is assumed present and not destroyed.
-/

/-- Whitespace removed by JavaScript String.prototype.trim (ASCII subset). -/
def isWhiteChar (c : Char) : Bool := c == ' ' || c == '\t' || c == '\n' || c == '\r'

/-- JavaScript String.prototype.trim. -/
def jsTrim (s : String) : String :=
  String.mk (((s.data.dropWhile isWhiteChar).reverse.dropWhile isWhiteChar).reverse)

/-- JavaScript String.prototype.toLowerCase (ASCII-level model). -/
def lowerStr (s : String) : String := String.mk (s.data.map Char.toLower)

/-- Helper for JavaScript String.prototype.includes: needle occurs in hay. -/
def listContainsSub (needle : List Char) : List Char → Bool
  | [] => needle.isEmpty
  | c :: rest => needle.isPrefixOf (c :: rest) || listContainsSub needle rest

/-- JavaScript hay.includes(needle). -/
def containsSubFn (hay needle : String) : Bool := listContainsSub needle.data hay.data

/-- audioDevice.replace(/\\/g, two backslashes): double every backslash. -/
def escBackslashes (s : String) : String :=
  String.mk (s.data.foldr (fun c acc => if c == '\\' then '\\' :: '\\' :: acc else c :: acc) [])

/-- path.join(dir, name) at the component level. -/
def pathJoin (dir name : String) : String := dir ++ "/" ++ name

/-- options.cameraName.replace over the character class of square brackets with
the empty string, then .trim() — main.js line 552. -/
def cleanCameraNameFn (name : String) : String :=
  jsTrim (String.mk (name.data.filter (fun c => c != '[' && c != ']')))

/-- cleanCameraName.toLowerCase().includes of the obs virtual marker — main.js line 558/728. -/
def isObsVirtualName (cleaned : String) : Bool :=
  containsSubFn (lowerStr cleaned) "obs virtual"

/-- An audio device as parsed by getAvailableAudioDevices: display name,
optional alternative (internal) name, default flag — main.js lines 188-192. -/
structure AudioDevice where
  name : String
  altName : Option String
  isDefault : Bool
deriving DecidableEq

/-- getCorrectAudioDeviceName — main.js lines 265-281: prefers the device's
alternative name when one is known, else returns the display name. -/
def getCorrectAudioDeviceName (devices : List AudioDevice) (displayName : String) : String :=
  match devices.find? (fun d => d.name == displayName) with
  | some d =>
    match d.altName with
    | some alt => alt
    | none => displayName
  | none => displayName

/-- getBestAudioDevice — main.js lines 233-262: prefer a microphone-like
name, else the first device, else none. -/
def getBestAudioDevice (devices : List AudioDevice) : Option String :=
  match devices with
  | [] => none
  | d0 :: rest =>
    match (d0 :: rest).find? (fun d =>
        containsSubFn (lowerStr d.name) "microphone" ||
        containsSubFn (lowerStr d.name) "réseau") with
    | some d => some d.name
    | none => some d0.name

/-- Camera I/O-error detection over one stderr line — main.js lines 933-934. -/
def ioErrorInLine (line : String) : Bool :=
  containsSubFn line "Error during demuxing: I/O error" ||
  containsSubFn line "No filtered frames for output stream"

/-- A selected screen region (after the selector's rounding; coordinates are
non-negative integers). -/
structure Rect where
  x : Nat
  y : Nat
  width : Nat
  height : Nat
deriving DecidableEq

/-- The region-too-small error text — main.js line 594. -/
def regionTooSmallMsg (w h : Nat) : String :=
  "Selected region is too small (" ++ toString w ++ "x" ++ toString h ++
  "). Minimum size is 16x16 pixels."

/-- Region validation and even-dimension adjustment in startRecording —
main.js lines 589-609: reject below 16x16, else floor both dimensions to
even (Math.floor(d / 2) * 2). -/
def validateRegionStep (r : Rect) : Except String Rect :=
  if r.width < 16 ∨ r.height < 16 then
    Except.error (regionTooSmallMsg r.width r.height)
  else
    Except.ok { x := r.x, y := r.y, width := r.width / 2 * 2, height := r.height / 2 * 2 }

/-- getFFmpegPath() — main.js line 377 returns the first candidate. -/
def getFFmpegPathS : String := "ffmpeg"

/-- The conditional scale filter fragment of the camera fallback commands. -/
def scaleSuffix (targetResolution : String) : String :=
  if targetResolution != "1920x1080" then "-vf scale=" ++ targetResolution else ""

/-- Fixed video encoding parameters shared by every camera fallback command. -/
def videoEncParams : String := "-c:v libx264 -preset ultrafast -crf 22 -pix_fmt yuv420p"

/-- The three camera fallback commands with an audio input —
main.js lines 757-764. -/
def fallbackCommandsWithAudio (frOpt : Option String) (cam aud res outp : String) :
    List String :=
  let fr := frOpt.getD "30"
  [getFFmpegPathS ++ " -f dshow -framerate " ++ fr ++ " -video_size 1920x1080 -i video=\"" ++
     cam ++ "\" -f dshow -i audio=\"" ++ escBackslashes aud ++ "\" " ++ videoEncParams ++
     " -c:a aac -b:a 128k -flush_packets 1 " ++ scaleSuffix res ++ " \"" ++ outp ++ "\"",
   getFFmpegPathS ++ " -f dshow -framerate " ++ fr ++ " -i video=\"" ++
     cam ++ "\" -f dshow -i audio=\"" ++ escBackslashes aud ++ "\" " ++ videoEncParams ++
     " -c:a aac -b:a 128k -flush_packets 1 " ++ scaleSuffix res ++ " \"" ++ outp ++ "\"",
   getFFmpegPathS ++ " -f dshow -framerate " ++ fr ++ " -video_size 1280x720 -i video=\"" ++
     cam ++ "\" -f dshow -i audio=\"" ++ escBackslashes aud ++ "\" " ++ videoEncParams ++
     " -c:a aac -b:a 128k -flush_packets 1 -vf scale=" ++ res ++ " \"" ++ outp ++ "\""]

/-- The three camera fallback commands without audio — main.js lines 768-775. -/
def fallbackCommandsNoAudio (frOpt : Option String) (cam res outp : String) : List String :=
  let fr := frOpt.getD "30"
  [getFFmpegPathS ++ " -f dshow -framerate " ++ fr ++ " -video_size 1920x1080 -i video=\"" ++
     cam ++ "\" " ++ videoEncParams ++ " -flush_packets 1 " ++ scaleSuffix res ++
     " \"" ++ outp ++ "\"",
   getFFmpegPathS ++ " -f dshow -framerate " ++ fr ++ " -i video=\"" ++
     cam ++ "\" " ++ videoEncParams ++ " -flush_packets 1 " ++ scaleSuffix res ++
     " \"" ++ outp ++ "\"",
   getFFmpegPathS ++ " -f dshow -framerate " ++ fr ++ " -video_size 1280x720 -i video=\"" ++
     cam ++ "\" " ++ videoEncParams ++ " -flush_packets 1 -vf scale=" ++ res ++
     " \"" ++ outp ++ "\""]

/-- fallbackCommands.length: the ladder always holds three candidates. -/
def fallbackCount : Nat := 3

/-- The per-attempt output path — main.js lines 803-809: attempt 0 keeps the
session output path; attempt k > 0 appends an _attempt suffix before the
extension. -/
def attemptPath (dir base ext : String) : Nat → String
  | 0 => dir ++ "/" ++ base ++ ext
  | Nat.succ k => dir ++ "/" ++ base ++ "_attempt" ++ toString (k + 1) ++ ext

/-- Modelled from the spec's words (section 4.2): every fallback attempt
writes to an output path suffixed with the attempt index. Used only to
compare the claimed shape with attemptPath, the one the code computes. -/
def specAttemptPath (dir base ext : String) (k : Nat) : String :=
  dir ++ "/" ++ base ++ "_attempt" ++ toString k ++ ext

/-- Result of the opaque addRecordingToTimeline collaborator —
main.js lines 1506-1649 (resolved object shape). -/
structure TimelineResult where
  success : Bool
  timelineName : Option String := none
  createdNewTimeline : Bool := false
  error : Option String := none
deriving DecidableEq

/-- A recording:completed payload — the CompletionResult of the spec. -/
structure CompletionResult where
  success : Bool
  filePath : Option String
  timelineResult : Option TimelineResult
  error : Option String
  warning : Option String
deriving DecidableEq

/-- Result of startRecording as returned over IPC. -/
structure StartResult where
  success : Bool
  filePath : Option String
  error : Option String
deriving DecidableEq

/-- Result of stopRecording as returned over IPC. -/
structure StopResult where
  success : Bool
  error : Option String
deriving DecidableEq

/-- Signals observed in a close event (code, signal) pair. -/
inductive Sig where
  | sigterm
  | sigkill
deriving DecidableEq, BEq

/-- Which close handlers the live session installed, determined by the
start path taken: desktop/window/region direct spawn (lines 1015-1069),
desktop with audio device via shell (lines 654-673), regular-camera
fallback ladder (lines 821-939), obs virtual camera (no handler from
startRecording; only stopRecording's listener at line 1295). -/
inductive SessKind where
  | desktop
  | audioShell
  | cameraRegular
  | obsVirtual
deriving DecidableEq, BEq

/-- The module-level mutable state of main.js together with the live
closure state of the camera fallback ladder and the pending deferred
actions. recordingProcess models whether the recordingProcess variable is
non-null; procShell whether that process was spawned through a shell
(spawn with a composed command string); procKilled its .killed flag;
forceKillTimers the number of armed stopRecording force-kill timeouts;
obsCloseHandlers the number of extra close listeners stopRecording has
installed on the live process; audioLookupPending whether the regular
camera start is still waiting on the getBestAudioDevice promise. -/
structure RecState where
  isRecording : Bool
  recordingProcess : Bool
  procShell : Bool
  procKilled : Bool
  currentRecordingPath : Option String
  originalRecordingPath : Option String
  timelineAdded : Bool
  currentAttempt : Nat
  ioErrorDetected : Bool
  pendingRetryMs : Option Nat
  forceKillTimers : Nat
  obsCloseHandlers : Nat
  audioLookupPending : Bool
  kind : SessKind
  dir : String
  base : String
  ext : String
deriving DecidableEq

/-- The idle state: no session live, all globals reset. -/
def initState : RecState where
  isRecording := false
  recordingProcess := false
  procShell := false
  procKilled := false
  currentRecordingPath := none
  originalRecordingPath := none
  timelineAdded := false
  currentAttempt := 0
  ioErrorDetected := false
  pendingRetryMs := none
  forceKillTimers := 0
  obsCloseHandlers := 0
  audioLookupPending := false
  kind := SessKind.desktop
  dir := ""
  base := ""
  ext := ""

/-- Source type of a capture request (window/region behave like desktop for
the supervisor: a direct, non-shell spawn with the non-camera handlers). -/
inductive SourceType where
  | desktop
  | camera
deriving DecidableEq

/-- The options object accepted by startRecording (the fields the
supervisor logic reads). -/
structure RecOptions where
  sourceType : SourceType
  cameraName : String
  framerate : Option String
  resolution : Option String
  audioDevice : Option String
deriving DecidableEq

def alreadyRecordingMsg : String := "Recording already in progress"

def noRecordingMsg : String := "No recording in progress"

/-- startRecording — main.js lines 513-1102, session-creation part.
Rejects when a recording is live (lines 514-517); otherwise resets the
timelineAdded guard (line 522) and dispatches:
- camera whose cleaned name marks an obs virtual device: the composed shell
  command is spawned before the function returns (the audio lookup is
  awaited, lines 728-745), then isRecording/paths are set (992-995);
- regular camera: getBestAudioDevice().then(...) is NOT awaited
  (line 751), so the function sets isRecording/paths (992-995) and returns
  success while recordingProcess is still null; the spawn happens later in
  the promise callback (event audioResolved);
- desktop with an audio device: shell spawn with its own close handler
  (lines 633-684);
- desktop without audio: direct spawn (line 990). -/
def startRecordingStep (opts : RecOptions) (dir base ext : String) (st : RecState) :
    RecState × StartResult :=
  if st.isRecording then
    (st, { success := false, filePath := none, error := some alreadyRecordingMsg })
  else
    let outP := pathJoin dir (base ++ ext)
    let st0 := { st with timelineAdded := false, dir := dir, base := base, ext := ext }
    match opts.sourceType with
    | SourceType.camera =>
      let cleaned := cleanCameraNameFn opts.cameraName
      if isObsVirtualName cleaned then
        ({ st0 with kind := SessKind.obsVirtual, recordingProcess := true, procShell := true,
                    procKilled := false, isRecording := true,
                    currentRecordingPath := some outP, originalRecordingPath := some outP,
                    audioLookupPending := false },
         { success := true, filePath := some outP, error := none })
      else
        ({ st0 with kind := SessKind.cameraRegular, audioLookupPending := true,
                    isRecording := true,
                    currentRecordingPath := some outP, originalRecordingPath := some outP },
         { success := true, filePath := some outP, error := none })
    | SourceType.desktop =>
      match opts.audioDevice with
      | some _ =>
        ({ st0 with kind := SessKind.audioShell, recordingProcess := true, procShell := true,
                    procKilled := false, isRecording := true,
                    currentRecordingPath := some outP, originalRecordingPath := some outP },
         { success := true, filePath := some outP, error := none })
      | none =>
        ({ st0 with kind := SessKind.desktop, recordingProcess := true, procShell := false,
                    procKilled := false, isRecording := true,
                    currentRecordingPath := some outP, originalRecordingPath := some outP },
         { success := true, filePath := some outP, error := none })

def allAttemptsFailedMsg : String :=
  "Camera recording failed: All attempts failed. The camera may be in use by another application. Try closing apps like Discord, Zoom, or OBS that might be using the camera, or use OBS Virtual Camera instead."

/-- attemptRecording entry — main.js lines 782-818: when the candidates are
exhausted (currentAttempt >= fallbackCommands.length) reset the state and
send a single failure completion, without consulting the timelineAdded
guard; otherwise spawn the candidate command through the shell and clear
the per-attempt ioErrorDetected flag. -/
def attemptStep (st : RecState) : RecState × List CompletionResult :=
  if fallbackCount ≤ st.currentAttempt then
    ({ st with isRecording := false, recordingProcess := false, currentRecordingPath := none },
     [{ success := false, filePath := st.currentRecordingPath, timelineResult := none,
        error := some allAttemptsFailedMsg, warning := none }])
  else
    ({ st with recordingProcess := true, procShell := true, procKilled := false,
               ioErrorDetected := false }, [])

/-- The getBestAudioDevice promise resolving for a regular camera start —
main.js line 751: the callback builds the ladder, initialises
currentAttempt to 0 and calls attemptRecording. -/
def audioResolvedStep (st : RecState) : RecState × List CompletionResult :=
  if st.audioLookupPending then
    attemptStep { st with audioLookupPending := false, currentAttempt := 0 }
  else (st, [])

/-- A scheduled setTimeout(attemptRecording, 1000) firing —
main.js lines 924 and 964. -/
def retryFireStep (st : RecState) : RecState × List CompletionResult :=
  match st.pendingRetryMs with
  | some _ => attemptStep { st with pendingRetryMs := none }
  | none => (st, [])

/-- wasManuallyStopped — main.js lines 825-827. -/
def wasManuallyStoppedB (code : Option Int) (sig : Option Sig) : Bool :=
  sig == some Sig.sigterm || sig == some Sig.sigkill ||
  (sig == none && code != some 0 && code != none) ||
  (sig == none && code == some 1)

/-- wasStopped — main.js line 838. -/
def wasStoppedB (code : Option Int) (sig : Option Sig) : Bool :=
  sig == some Sig.sigterm || (sig == none && code == some 1)

/-- fs.existsSync p && fs.statSync(p).size > threshold. -/
def fileLargerThan (fsz : String → Option Nat) (p : String) (threshold : Nat) : Bool :=
  match fsz p with
  | some sz => threshold < sz
  | none => false

def showCode : Option Int → String
  | some n => toString n
  | none => "null"

def showSig : Option Sig → String
  | some Sig.sigterm => "SIGTERM"
  | some Sig.sigkill => "SIGKILL"
  | none => "null"

def stopNoFileMsg : String := "Camera recording stopped but no valid file created"

def camFailMsg (code : Option Int) (sig : Option Sig) : String :=
  "Camera recording failed with exit code " ++ showCode code ++ ", signal: " ++ showSig sig

/-- The close handler installed on every camera fallback attempt —
main.js lines 821-925. On a manually-stopped exit, validate the session
path (currentRecordingPath falling back to originalRecordingPath) against
the 1024-byte threshold; a valid file fires a guarded success completion,
anything else fires an unguarded failure completion. On a clean exit
(code 0, no observed I/O error, non-empty per-attempt file) reset state and
fire a guarded success completion referencing the attempt's own output
path. Otherwise advance the attempt counter and schedule a retry in
1000 ms (recordingProcess is left pointing at the dead process, as in the
source). -/
def cameraAttemptClose (fsz : String → Option Nat) (tr : TimelineResult)
    (st : RecState) (code : Option Int) (sig : Option Sig) :
    RecState × List CompletionResult :=
  let curOut := attemptPath st.dir st.base st.ext st.currentAttempt
  if wasManuallyStoppedB code sig then
    let completed := st.currentRecordingPath <|> st.originalRecordingPath
    let stR := { st with isRecording := false, recordingProcess := false,
                         currentRecordingPath := none }
    let isValid := wasStoppedB code sig &&
      (match completed with
       | some p => fileLargerThan fsz p 1024
       | none => false)
    if isValid && !st.timelineAdded then
      ({ stR with timelineAdded := true },
       [{ success := true, filePath := completed, timelineResult := some tr,
          error := none, warning := some "Camera recording stopped by user" }])
    else
      (stR, [{ success := false, filePath := none, timelineResult := none,
               error := some (if wasStoppedB code sig then stopNoFileMsg
                              else camFailMsg code sig),
               warning := none }])
  else if code == some 0 && !st.ioErrorDetected && fileLargerThan fsz curOut 0 then
    let stR := { st with isRecording := false, recordingProcess := false,
                         currentRecordingPath := none }
    if st.timelineAdded then (stR, [])
    else
      ({ stR with timelineAdded := true },
       [{ success := true, filePath := some curOut, timelineResult := some tr,
          error := none, warning := none }])
  else
    ({ st with currentAttempt := st.currentAttempt + 1, pendingRetryMs := some 1000 }, [])

def ffmpegFailMsg (code : Option Int) : String :=
  "FFmpeg recording failed with exit code " ++ showCode code

def exitWarnMsg (code : Option Int) : String :=
  "Recording completed with exit code " ++ showCode code ++ " (normal for cameras)"

/-- The close handler of a directly-spawned (screen/window/region)
recording — main.js lines 1015-1069. Note that it never touches the armed
force-kill timeout. -/
def nonCameraClose (fsz : String → Option Nat) (tr : TimelineResult)
    (st : RecState) (code : Option Int) (_sig : Option Sig) :
    RecState × List CompletionResult :=
  let outP := pathJoin st.dir (st.base ++ st.ext)
  let st1 := { st with isRecording := false, recordingProcess := false }
  if code == some 0 && !st1.timelineAdded then
    ({ st1 with timelineAdded := true },
     [{ success := true, filePath := some outP, timelineResult := some tr,
        error := none, warning := none }])
  else if code != none && code != some 0 then
    if fileLargerThan fsz outP 1024 then
      if st1.timelineAdded then (st1, [])
      else
        ({ st1 with timelineAdded := true },
         [{ success := true, filePath := some outP, timelineResult := some tr,
            error := none, warning := some (exitWarnMsg code) }])
    else
      (st1, [{ success := false, filePath := none, timelineResult := none,
               error := some (ffmpegFailMsg code), warning := none }])
  else (st1, [])

/-- The close handler of the desktop-with-audio shell recording —
main.js lines 654-673: resets state and fires a guarded success completion
regardless of the exit code. -/
def audioShellClose (tr : TimelineResult) (st : RecState) :
    RecState × List CompletionResult :=
  let outP := pathJoin st.dir (st.base ++ st.ext)
  let st1 := { st with isRecording := false, recordingProcess := false,
                       currentRecordingPath := none }
  if st1.timelineAdded then (st1, [])
  else
    ({ st1 with timelineAdded := true },
     [{ success := true, filePath := some outP, timelineResult := some tr,
        error := none, warning := none }])

/-- processOBSRecording — main.js lines 1192-1291: resolves the completed
path (currentRecordingPath falling back to originalRecordingPath), resets
state, and after the finalisation delay validates the file. A valid file
fires a guarded success completion whose timeline outcome comes from the
collaborator (resolution attaches the result; rejection attaches the
advisory error string); an invalid or missing file fires an unguarded
failure completion. -/
def processOBSRecording (fsz : String → Option Nat)
    (tl : Except String TimelineResult) (st : RecState) :
    RecState × List CompletionResult :=
  let completed := st.currentRecordingPath <|> st.originalRecordingPath
  let stR := { st with recordingProcess := false, isRecording := false,
                       currentRecordingPath := none, originalRecordingPath := none }
  match completed with
  | none => (stR, [])
  | some p =>
    match fsz p with
    | some sz =>
      if 1024 < sz then
        if stR.timelineAdded then (stR, [])
        else
          match tl with
          | Except.ok result =>
            ({ stR with timelineAdded := true },
             [{ success := true, filePath := some p, timelineResult := some result,
                error := none,
                warning := some "OBS Virtual Camera recording stopped by user" }])
          | Except.error _ =>
            ({ stR with timelineAdded := true },
             [{ success := true, filePath := some p, timelineResult := none,
                error := some "Recording completed but timeline integration failed",
                warning := none }])
      else
        (stR, [{ success := false, filePath := none, timelineResult := none,
                 error := some "OBS Virtual Camera recording stopped but file is invalid or empty",
                 warning := none }])
    | none =>
      (stR, [{ success := false, filePath := none, timelineResult := none,
               error := some "OBS Virtual Camera recording stopped but no file was created",
               warning := none }])

/-- The extra close listener stopRecording installs on a shell process —
main.js lines 1295-1301: on SIGTERM, or a null signal with code 0 or 1,
run processOBSRecording. -/
def obsCloseHandler (fsz : String → Option Nat) (tl : Except String TimelineResult)
    (st : RecState) (code : Option Int) (sig : Option Sig) :
    RecState × List CompletionResult :=
  if sig == some Sig.sigterm || (sig == none && (code == some 0 || code == some 1)) then
    processOBSRecording fsz tl st
  else (st, [])

/-- Run the n extra close listeners installed by (possibly repeated)
stopRecording calls, in installation order, threading the shared globals. -/
def runObsHandlers (fsz : String → Option Nat) (tl : Except String TimelineResult)
    (code : Option Int) (sig : Option Sig) : Nat → RecState → RecState × List CompletionResult
  | 0, st => (st, [])
  | n + 1, st =>
    let r1 := obsCloseHandler fsz tl st code sig
    let r2 := runObsHandlers fsz tl code sig n r1.1
    (r2.1, r1.2 ++ r2.2)

/-- A stderr data line — main.js lines 927-939: only the camera fallback
handler scans for the I/O-error substrings. -/
def stderrStep (line : String) (st : RecState) : RecState :=
  if st.kind == SessKind.cameraRegular && ioErrorInLine line then
    { st with ioErrorDetected := true }
  else st

def allAttemptsErrorMsg (msg : String) : String :=
  "Camera recording failed: All attempts failed with errors. " ++ msg

/-- The process error handler of a camera fallback attempt —
main.js lines 942-965: advance the counter; when exhausted fire an
unguarded failure completion, else schedule a retry in 1000 ms. -/
def procErrorStep (msg : String) (st : RecState) : RecState × List CompletionResult :=
  let st1 := { st with currentAttempt := st.currentAttempt + 1 }
  if fallbackCount ≤ st1.currentAttempt then
    ({ st1 with isRecording := false, recordingProcess := false,
                currentRecordingPath := none },
     [{ success := false, filePath := st1.currentRecordingPath, timelineResult := none,
        error := some (allAttemptsErrorMsg msg), warning := none }])
  else
    ({ st1 with pendingRetryMs := some 1000 }, [])

/-- The force-kill timeout delay — main.js line 1338 (setTimeout delay). -/
def forceKillDelayMs : Nat := 3000

/-- stopRecording — main.js lines 1105-1344: rejected unless both
isRecording and recordingProcess are set; otherwise send the stop signal
(quit token or taskkill; for a shell process also install the extra close
listener of line 1295) and always arm a new force-kill timeout. The
globals isRecording/recordingProcess/paths are not changed synchronously. -/
def stopStep (st : RecState) : RecState × StopResult :=
  if st.isRecording && st.recordingProcess then
    let st1 := if st.procShell then { st with obsCloseHandlers := st.obsCloseHandlers + 1 }
               else st
    ({ st1 with forceKillTimers := st1.forceKillTimers + 1 },
     { success := true, error := none })
  else
    (st, { success := false, error := some noRecordingMsg })

/-- The force-kill timeout firing — main.js lines 1324-1338: if a process
handle is present and not yet killed, SIGKILL it and reset all state;
expiry consumes the timer either way. -/
def forceKillFire (st : RecState) : RecState :=
  if 0 < st.forceKillTimers then
    let st1 := { st with forceKillTimers := st.forceKillTimers - 1 }
    if st1.recordingProcess && !st1.procKilled then
      { st1 with procKilled := true, recordingProcess := false, isRecording := false,
                 currentRecordingPath := none, originalRecordingPath := none }
    else st1
  else st

/-- handleSuccessfulOBSKill's timeout clearing — main.js lines 1183-1186:
cancel the (latest) armed force-kill timeout. -/
def clearForceKill (st : RecState) : RecState :=
  if 0 < st.forceKillTimers then { st with forceKillTimers := st.forceKillTimers - 1 }
  else st

/-- handleSuccessfulOBSKill — main.js lines 1180-1189: a successful
taskkill clears the force-kill timeout and processes the recording. -/
def taskkillSuccessStep (fsz : String → Option Nat) (tl : Except String TimelineResult)
    (st : RecState) : RecState × List CompletionResult :=
  processOBSRecording fsz tl (clearForceKill st)

/-- Asynchronous events delivered to the live session by the event loop.
Environment inputs (file sizes, the timeline collaborator's outcome) ride
on the event. -/
inductive Ev where
  | close (code : Option Int) (sig : Option Sig) (fsz : String → Option Nat)
      (tr : TimelineResult) (tl : Except String TimelineResult)
  | retryFire
  | stopCall
  | forceKill
  | audioResolved
  | stderrLine (line : String)
  | procError (msg : String)
  | taskkillSuccess (fsz : String → Option Nat) (tl : Except String TimelineResult)

/-- The primary close handler of the live session, selected by the start
path that installed it. -/
def primClose (fsz : String → Option Nat) (tr : TimelineResult) (st : RecState)
    (code : Option Int) (sig : Option Sig) : RecState × List CompletionResult :=
  match st.kind with
  | SessKind.cameraRegular => cameraAttemptClose fsz tr st code sig
  | SessKind.desktop => nonCameraClose fsz tr st code sig
  | SessKind.audioShell => audioShellClose tr st
  | SessKind.obsVirtual => (st, [])

/-- One event-loop dispatch: a close event runs the session's primary close
handler followed by every extra listener stopRecording installed on the
process (all spent afterwards); the other events run the corresponding
callback. -/
def stepEv (st : RecState) (ev : Ev) : RecState × List CompletionResult :=
  match ev with
  | Ev.close code sig fsz tr tl =>
    let prim := primClose fsz tr st code sig
    let obs := runObsHandlers fsz tl code sig st.obsCloseHandlers prim.1
    ({ obs.1 with obsCloseHandlers := 0 }, prim.2 ++ obs.2)
  | Ev.retryFire => retryFireStep st
  | Ev.stopCall => ((stopStep st).1, [])
  | Ev.forceKill => (forceKillFire st, [])
  | Ev.audioResolved => audioResolvedStep st
  | Ev.stderrLine line => (stderrStep line st, [])
  | Ev.procError msg => procErrorStep msg st
  | Ev.taskkillSuccess fsz tl => taskkillSuccessStep fsz tl st

/-- Run a sequence of events, collecting every completion sent. -/
def runTrace (st : RecState) : List Ev → RecState × List CompletionResult
  | [] => (st, [])
  | e :: es =>
    let r1 := stepEv st e
    let r2 := runTrace r1.1 es
    (r2.1, r1.2 ++ r2.2)

/-- Number of success completions in a batch. -/
def countSuccess : List CompletionResult → Nat
  | [] => 0
  | c :: rest => (if c.success then 1 else 0) + countSuccess rest

/-- The timelineAdded single-fire guard as a 0/1 quantity. -/
def guardBit (st : RecState) : Nat := if st.timelineAdded then 1 else 0

/-! Concrete scenario states used by the counterexamples below. -/

/-- A regular (non-virtual) camera capture request. -/
def c1Opts : RecOptions where
  sourceType := SourceType.camera
  cameraName := "USB Camera"
  framerate := none
  resolution := none
  audioDevice := none

/-- Session state after startRecording returns for a regular camera. -/
def c1AfterStart : RecState :=
  (startRecordingStep c1Opts "C:/rec" "screen-recording-t" ".mp4" initState).1

/-- After the audio lookup resolves and attempt 0 spawns. -/
def c1AfterSpawn : RecState := (stepEv c1AfterStart Ev.audioResolved).1

/-- After stopRecording: the extra close listener is installed and a
force-kill timeout armed. -/
def c1AfterStop : RecState := (stepEv c1AfterSpawn Ev.stopCall).1

/-- The completions delivered when the stopped attempt closes with exit
code 1 and no output file was ever written. -/
def c1Completions : List CompletionResult :=
  (stepEv c1AfterStop
    (Ev.close (some 1) none (fun _ => none) { success := true }
      (Except.ok { success := true }))).2

/-- A session that is live and being stopped: isRecording and
recordingProcess still set (stopRecording changes neither synchronously). -/
def c4Stopping : RecState :=
  { initState with isRecording := true, recordingProcess := true,
                   currentRecordingPath := some (pathJoin "C:/rec" "a.mp4"),
                   originalRecordingPath := some (pathJoin "C:/rec" "a.mp4") }

/-- A desktop capture request without an audio device. -/
def c5Opts : RecOptions where
  sourceType := SourceType.desktop
  cameraName := ""
  framerate := none
  resolution := none
  audioDevice := none

/-- A desktop session just started. -/
def c5Started : RecState := (startRecordingStep c5Opts "C:/rec" "a" ".mp4" initState).1

/-- After stopRecording: one force-kill timeout armed. -/
def c5Stopped : RecState := (stepEv c5Started Ev.stopCall).1

/-- After the process exits cleanly (code 0, valid file) before the
deadline. -/
def c5AfterCleanExit : RecState :=
  (stepEv c5Stopped
    (Ev.close (some 0) none (fun _ => some 4000) { success := true }
      (Except.ok { success := true }))).1

/-- A second desktop recording started inside the 3-second window. -/
def c5Restarted : RecState := (startRecordingStep c5Opts "C:/rec" "b" ".mp4" c5AfterCleanExit).1

/-- The stale force-kill timeout of the first stop firing. -/
def c5AfterStaleKill : RecState := (stepEv c5Restarted Ev.forceKill).1

/-! Helper lemmas about strings, used to reason about the per-attempt
output paths. -/

theorem strDataAppend (a b : String) : (a ++ b).data = a.data ++ b.data := rfl

theorem strExt {a b : String} (h : a.data = b.data) : a = b := by
  cases a
  cases b
  cases h
  rfl

theorem strLenAppend (a b : String) : (a ++ b).length = a.length + b.length := by
  show (a ++ b).data.length = a.data.length + b.data.length
  rw [strDataAppend, List.length_append]

theorem strAppendAssoc (a b c : String) : a ++ b ++ c = a ++ (b ++ c) := by
  apply strExt
  rw [strDataAppend, strDataAppend, strDataAppend, strDataAppend, List.append_assoc]

theorem strAppendLeftCancel {a b c : String} (h : a ++ b = a ++ c) : b = c := by
  apply strExt
  have h2 : (a ++ b).data = (a ++ c).data := by rw [h]
  rw [strDataAppend, strDataAppend] at h2
  exact List.append_cancel_left h2

theorem attemptPathZero (d b e : String) : attemptPath d b e 0 = d ++ "/" ++ b ++ e := rfl

theorem attemptPathOne (d b e : String) :
    attemptPath d b e 1 = d ++ "/" ++ b ++ "_attempt" ++ "1" ++ e := rfl

theorem attemptPathTwo (d b e : String) :
    attemptPath d b e 2 = d ++ "/" ++ b ++ "_attempt" ++ "2" ++ e := rfl

theorem attemptPathZeroNeOne (d b e : String) : attemptPath d b e 0 ≠ attemptPath d b e 1 := by
  intro h
  rw [attemptPathZero, attemptPathOne] at h
  have hl := congrArg String.length h
  simp only [strLenAppend] at hl
  rw [show ("_attempt" : String).length = 8 from rfl, show ("1" : String).length = 1 from rfl]
    at hl
  omega

theorem attemptPathZeroNeTwo (d b e : String) : attemptPath d b e 0 ≠ attemptPath d b e 2 := by
  intro h
  rw [attemptPathZero, attemptPathTwo] at h
  have hl := congrArg String.length h
  simp only [strLenAppend] at hl
  rw [show ("_attempt" : String).length = 8 from rfl, show ("2" : String).length = 1 from rfl]
    at hl
  omega

theorem attemptPathOneNeTwo (d b e : String) : attemptPath d b e 1 ≠ attemptPath d b e 2 := by
  intro h
  rw [attemptPathOne, attemptPathTwo] at h
  rw [strAppendAssoc (d ++ "/" ++ b ++ "_attempt") "1" e,
      strAppendAssoc (d ++ "/" ++ b ++ "_attempt") "2" e] at h
  have h2 := strAppendLeftCancel h
  have h3 : ("1" ++ e).data = ("2" ++ e).data := by rw [h2]
  rw [strDataAppend, strDataAppend] at h3
  rw [show ("1" : String).data = ['1'] from rfl, show ("2" : String).data = ['2'] from rfl]
    at h3
  simp at h3

theorem attemptPathPairwise (d b e : String) (j k : Nat) (hj : j < 3) (hk : k < 3)
    (hjk : j ≠ k) : attemptPath d b e j ≠ attemptPath d b e k := by
  interval_cases j <;> interval_cases k <;>
    first
      | exact absurd rfl hjk
      | exact attemptPathZeroNeOne d b e
      | exact attemptPathZeroNeTwo d b e
      | exact attemptPathOneNeTwo d b e
      | exact Ne.symm (attemptPathZeroNeOne d b e)
      | exact Ne.symm (attemptPathZeroNeTwo d b e)
      | exact Ne.symm (attemptPathOneNeTwo d b e)


/-! The single-fire accounting: each step's success completions are paid
for by the timelineAdded guard flipping from false to true. -/

theorem countSuccessAppend (l1 l2 : List CompletionResult) :
    countSuccess (l1 ++ l2) = countSuccess l1 + countSuccess l2 := by
  induction l1 with
  | nil => simp [countSuccess]
  | cons c rest ih => simp [countSuccess, ih]; omega

theorem guardBitLeOne (st : RecState) : guardBit st ≤ 1 := by
  unfold guardBit
  split <;> omega

theorem guardComp {st st1 st2 : RecState} {out1 out2 : List CompletionResult}
    (h1 : countSuccess out1 + guardBit st ≤ guardBit st1)
    (h2 : countSuccess out2 + guardBit st1 ≤ guardBit st2) :
    countSuccess (out1 ++ out2) + guardBit st ≤ guardBit st2 := by
  rw [countSuccessAppend]
  omega

theorem cameraAttemptCloseGuard (fsz : String → Option Nat) (tr : TimelineResult)
    (st : RecState) (code : Option Int) (sig : Option Sig) :
    countSuccess (cameraAttemptClose fsz tr st code sig).2 + guardBit st ≤
      guardBit (cameraAttemptClose fsz tr st code sig).1 := by
  unfold cameraAttemptClose
  dsimp only
  split
  · split
    all_goals simp_all [countSuccess, guardBit]
  · split
    · split
      all_goals simp_all [countSuccess, guardBit]
    · simp_all [countSuccess, guardBit]

theorem nonCameraCloseGuard (fsz : String → Option Nat) (tr : TimelineResult)
    (st : RecState) (code : Option Int) (sig : Option Sig) :
    countSuccess (nonCameraClose fsz tr st code sig).2 + guardBit st ≤
      guardBit (nonCameraClose fsz tr st code sig).1 := by
  unfold nonCameraClose
  dsimp only
  split
  · simp_all [countSuccess, guardBit]
  · split
    · split
      · split
        all_goals simp_all [countSuccess, guardBit]
      · simp_all [countSuccess, guardBit]
    · simp_all [countSuccess, guardBit]

theorem audioShellCloseGuard (tr : TimelineResult) (st : RecState) :
    countSuccess (audioShellClose tr st).2 + guardBit st ≤
      guardBit (audioShellClose tr st).1 := by
  unfold audioShellClose
  dsimp only
  split
  all_goals simp_all [countSuccess, guardBit]

theorem processOBSRecordingGuard (fsz : String → Option Nat)
    (tl : Except String TimelineResult) (st : RecState) :
    countSuccess (processOBSRecording fsz tl st).2 + guardBit st ≤
      guardBit (processOBSRecording fsz tl st).1 := by
  unfold processOBSRecording
  dsimp only
  split
  · simp_all [countSuccess, guardBit]
  · split
    · split
      · split
        · simp_all [countSuccess, guardBit]
        · split
          all_goals simp_all [countSuccess, guardBit]
      · simp_all [countSuccess, guardBit]
    · simp_all [countSuccess, guardBit]

theorem obsCloseHandlerGuard (fsz : String → Option Nat)
    (tl : Except String TimelineResult) (st : RecState) (code : Option Int)
    (sig : Option Sig) :
    countSuccess (obsCloseHandler fsz tl st code sig).2 + guardBit st ≤
      guardBit (obsCloseHandler fsz tl st code sig).1 := by
  unfold obsCloseHandler
  split
  · exact processOBSRecordingGuard fsz tl st
  · simp [countSuccess]

theorem runObsHandlersGuard (fsz : String → Option Nat)
    (tl : Except String TimelineResult) (code : Option Int) (sig : Option Sig)
    (n : Nat) (st : RecState) :
    countSuccess (runObsHandlers fsz tl code sig n st).2 + guardBit st ≤
      guardBit (runObsHandlers fsz tl code sig n st).1 := by
  induction n generalizing st with
  | zero => simp [runObsHandlers, countSuccess]
  | succ m ih =>
    have h1 := obsCloseHandlerGuard fsz tl st code sig
    have h2 := ih (obsCloseHandler fsz tl st code sig).1
    simp only [runObsHandlers]
    exact guardComp h1 h2

theorem attemptStepGuard (st : RecState) :
    countSuccess (attemptStep st).2 + guardBit st ≤ guardBit (attemptStep st).1 := by
  unfold attemptStep
  split
  all_goals simp_all [countSuccess, guardBit]

theorem primCloseGuard (fsz : String → Option Nat) (tr : TimelineResult)
    (st : RecState) (code : Option Int) (sig : Option Sig) :
    countSuccess (primClose fsz tr st code sig).2 + guardBit st ≤
      guardBit (primClose fsz tr st code sig).1 := by
  unfold primClose
  cases st.kind with
  | cameraRegular => exact cameraAttemptCloseGuard fsz tr st code sig
  | desktop => exact nonCameraCloseGuard fsz tr st code sig
  | audioShell => exact audioShellCloseGuard tr st
  | obsVirtual => simp [countSuccess]

theorem guardBitClearObs (st : RecState) :
    guardBit { st with obsCloseHandlers := 0 } = guardBit st := rfl

theorem stepEvGuard (st : RecState) (ev : Ev) :
    countSuccess (stepEv st ev).2 + guardBit st ≤ guardBit (stepEv st ev).1 := by
  cases ev with
  | close code sig fsz tr tl =>
    simp only [stepEv]
    have h1 := primCloseGuard fsz tr st code sig
    have h2 := runObsHandlersGuard fsz tl code sig st.obsCloseHandlers
        (primClose fsz tr st code sig).1
    have h3 := guardComp h1 h2
    rw [guardBitClearObs]
    exact h3
  | retryFire =>
    simp only [stepEv]
    unfold retryFireStep
    split
    · exact attemptStepGuard _
    · simp [countSuccess]
  | stopCall =>
    simp only [stepEv]
    unfold stopStep
    dsimp only
    split
    · split
      all_goals simp_all [countSuccess, guardBit]
    · simp_all [countSuccess, guardBit]
  | forceKill =>
    simp only [stepEv]
    unfold forceKillFire
    dsimp only
    split
    · split
      all_goals simp_all [countSuccess, guardBit]
    · simp_all [countSuccess, guardBit]
  | audioResolved =>
    simp only [stepEv]
    unfold audioResolvedStep
    split
    · exact attemptStepGuard _
    · simp [countSuccess]
  | stderrLine line =>
    simp only [stepEv]
    unfold stderrStep
    split
    all_goals simp_all [countSuccess, guardBit]
  | procError msg =>
    simp only [stepEv]
    unfold procErrorStep
    dsimp only
    split
    all_goals simp_all [countSuccess, guardBit]
  | taskkillSuccess fsz tl =>
    simp only [stepEv]
    unfold taskkillSuccessStep
    have h1 := processOBSRecordingGuard fsz tl (clearForceKill st)
    have hc : guardBit (clearForceKill st) = guardBit st := by
      unfold clearForceKill guardBit
      split <;> rfl
    omega

theorem runTraceGuard (es : List Ev) (st : RecState) :
    countSuccess (runTrace st es).2 + guardBit st ≤ guardBit (runTrace st es).1 := by
  induction es generalizing st with
  | nil => simp [runTrace, countSuccess]
  | cons e rest ih =>
    simp only [runTrace]
    exact guardComp (stepEvGuard st e) (ih (stepEv st e).1)

/-! Claims -/

/-- Claim C1 (counterexample): the claim says at most one CompletionResult
is delivered per session and that every later trigger suppresses its own
completion, including failure completions. In the concrete session
c1AfterStop (a regular camera attempt that was stopped), the single close
event with exit code 1 and no output file delivers two completions — the
attempt's close handler and stopRecording's extra close listener each fire
an unguarded failure completion. -/
theorem completion_two_failures_one_session :
    c1Completions.length = 2 ∧ c1Completions.all (fun c => !c.success) = true := by
  decide

/-- Claim C1 (amended): at most one success completion is delivered per
session: every success-completion path checks and sets the timelineAdded
single-fire guard. Failure completions are not guarded and can be
delivered more than once for one session. -/
theorem success_completion_at_most_once (es : List Ev) (st : RecState)
    (h : st.timelineAdded = false) :
    countSuccess (runTrace st es).2 ≤ 1 := by
  have h1 := runTraceGuard es st
  have h2 := guardBitLeOne (runTrace st es).1
  have h3 : guardBit st = 0 := by simp [guardBit, h]
  omega

theorem success_completion_at_most_once_witness :
    c1AfterStop.timelineAdded = false ∧
      countSuccess (runTrace c1AfterStop
        [Ev.close (some 1) none (fun _ => none) { success := true }
          (Except.ok { success := true }), Ev.forceKill]).2 ≤ 1 :=
  ⟨by decide,
   success_completion_at_most_once
     [Ev.close (some 1) none (fun _ => none) { success := true }
       (Except.ok { success := true }), Ev.forceKill]
     c1AfterStop (by decide)⟩

/-- Claim C2 (counterexample): the claim says each of the up-to-3 fallback
attempts writes to an output path suffixed with the attempt index; attempt
0 writes to the unsuffixed session path, differing from the claimed shape
(specAttemptPath, modelled from the spec's words). -/
theorem first_attempt_path_unsuffixed :
    attemptPath "C:/rec" "screen-recording-t" ".mp4" 0 ≠
      specAttemptPath "C:/rec" "screen-recording-t" ".mp4" 0 := by
  decide

/-- Claim C2 (amended): the camera fallback ladder holds exactly 3
candidate commands; the first attempt writes to the unsuffixed session
output path while every later attempt k writes to a path suffixed with
_attempt and the index k, and the three attempt paths are pairwise
distinct; a failed attempt (here: exit 0 with an observed I/O error)
advances the counter and schedules the next candidate after a fixed
1000 ms backoff without emitting a completion; exhausting the candidates
fires exactly one failure completion whose error message cites that all
attempts failed. -/
theorem camera_fallback_ladder_spec
    (frOpt : Option String) (cam aud res outp d b e : String)
    (j k : Nat) (hj : j < 3) (hk : k < 3) (hjk : j ≠ k)
    (stx : RecState) (hx : fallbackCount ≤ stx.currentAttempt)
    (sty : RecState) (fsz : String → Option Nat) (tr : TimelineResult)
    (hyio : sty.ioErrorDetected = true) :
    (fallbackCommandsWithAudio frOpt cam aud res outp).length = fallbackCount ∧
    (fallbackCommandsNoAudio frOpt cam res outp).length = fallbackCount ∧
    fallbackCount = 3 ∧
    attemptPath d b e j ≠ attemptPath d b e k ∧
    (∀ m : Nat, 0 < m → attemptPath d b e m = specAttemptPath d b e m) ∧
    (cameraAttemptClose fsz tr sty (some 0) none).1.currentAttempt =
      sty.currentAttempt + 1 ∧
    (cameraAttemptClose fsz tr sty (some 0) none).1.pendingRetryMs = some 1000 ∧
    (cameraAttemptClose fsz tr sty (some 0) none).2 = [] ∧
    (attemptStep stx).2.length = 1 ∧
    (attemptStep stx).2.all
      (fun c => !c.success && (c.error == some allAttemptsFailedMsg)) = true ∧
    containsSubFn allAttemptsFailedMsg "All attempts failed" = true := by
  refine ⟨rfl, rfl, rfl, attemptPathPairwise d b e j k hj hk hjk, ?_, ?_, ?_, ?_, ?_, ?_, ?_⟩
  · intro m hm
    cases m with
    | zero => omega
    | succ n => rfl
  · simp [cameraAttemptClose, wasManuallyStoppedB, hyio]
  · simp [cameraAttemptClose, wasManuallyStoppedB, hyio]
  · simp [cameraAttemptClose, wasManuallyStoppedB, hyio]
  · simp [attemptStep, hx]
  · simp [attemptStep, hx]
  · decide

theorem camera_fallback_ladder_spec_witness :
    ((0 : Nat) < 3 ∧ (1 : Nat) < 3 ∧ (0 : Nat) ≠ 1 ∧
     fallbackCount ≤ ({ initState with currentAttempt := 3 } : RecState).currentAttempt ∧
     ({ initState with ioErrorDetected := true } : RecState).ioErrorDetected = true) ∧
    ((fallbackCommandsWithAudio none "Cam" "Mic" "1920x1080" "o.mp4").length = fallbackCount ∧
     (fallbackCommandsNoAudio none "Cam" "1920x1080" "o.mp4").length = fallbackCount ∧
     fallbackCount = 3 ∧
     attemptPath "C:/rec" "rec" ".mp4" 0 ≠ attemptPath "C:/rec" "rec" ".mp4" 1 ∧
     (∀ m : Nat, 0 < m →
       attemptPath "C:/rec" "rec" ".mp4" m = specAttemptPath "C:/rec" "rec" ".mp4" m) ∧
     (cameraAttemptClose (fun _ => none) { success := true }
        { initState with ioErrorDetected := true } (some 0) none).1.currentAttempt =
       ({ initState with ioErrorDetected := true } : RecState).currentAttempt + 1 ∧
     (cameraAttemptClose (fun _ => none) { success := true }
        { initState with ioErrorDetected := true } (some 0) none).1.pendingRetryMs =
       some 1000 ∧
     (cameraAttemptClose (fun _ => none) { success := true }
        { initState with ioErrorDetected := true } (some 0) none).2 = [] ∧
     (attemptStep { initState with currentAttempt := 3 }).2.length = 1 ∧
     (attemptStep { initState with currentAttempt := 3 }).2.all
       (fun c => !c.success && (c.error == some allAttemptsFailedMsg)) = true ∧
     containsSubFn allAttemptsFailedMsg "All attempts failed" = true) :=
  ⟨⟨by decide, by decide, by decide, by decide, rfl⟩,
   camera_fallback_ladder_spec none "Cam" "Mic" "1920x1080" "o.mp4" "C:/rec" "rec" ".mp4"
     0 1 (by decide) (by decide) (by decide)
     { initState with currentAttempt := 3 } (by decide)
     { initState with ioErrorDetected := true } (fun _ => none) { success := true } rfl⟩

/-- Claim C3: a camera fallback attempt whose process exits with code 0
(no signal), with no observed I/O error and a non-empty per-attempt output
file, is classified as a success: the session fires one success completion
referencing that attempt's output path, does not advance the attempt
counter and schedules no retry. -/
theorem camera_attempt_success_classification
    (fsz : String → Option Nat) (tr : TimelineResult) (tl : Except String TimelineResult)
    (st : RecState) (sz : Nat)
    (hk : st.kind = SessKind.cameraRegular)
    (hobs : st.obsCloseHandlers = 0)
    (hio : st.ioErrorDetected = false)
    (hguard : st.timelineAdded = false)
    (hfile : fsz (attemptPath st.dir st.base st.ext st.currentAttempt) = some sz)
    (hpos : 0 < sz) :
    (stepEv st (Ev.close (some 0) none fsz tr tl)).2 =
      [{ success := true,
         filePath := some (attemptPath st.dir st.base st.ext st.currentAttempt),
         timelineResult := some tr, error := none, warning := none }] ∧
    (stepEv st (Ev.close (some 0) none fsz tr tl)).1.currentAttempt = st.currentAttempt ∧
    (stepEv st (Ev.close (some 0) none fsz tr tl)).1.pendingRetryMs = st.pendingRetryMs ∧
    (stepEv st (Ev.close (some 0) none fsz tr tl)).1.isRecording = false ∧
    (stepEv st (Ev.close (some 0) none fsz tr tl)).1.recordingProcess = false := by
  simp [stepEv, primClose, hk, cameraAttemptClose, wasManuallyStoppedB, fileLargerThan,
        hfile, hio, hguard, hobs, runObsHandlers, hpos]

theorem camera_attempt_success_classification_witness :
    (({ initState with kind := SessKind.cameraRegular, isRecording := true,
                       recordingProcess := true, dir := "C:/rec", base := "r",
                       ext := ".mp4", currentAttempt := 1 } : RecState).kind =
       SessKind.cameraRegular ∧
     ({ initState with kind := SessKind.cameraRegular, isRecording := true,
                       recordingProcess := true, dir := "C:/rec", base := "r",
                       ext := ".mp4", currentAttempt := 1 } : RecState).obsCloseHandlers = 0 ∧
     (0 : Nat) < 5) ∧
    (stepEv { initState with kind := SessKind.cameraRegular, isRecording := true,
                             recordingProcess := true, dir := "C:/rec", base := "r",
                             ext := ".mp4", currentAttempt := 1 }
       (Ev.close (some 0) none (fun _ => some 5) { success := true }
         (Except.ok { success := true }))).2 =
      [{ success := true,
         filePath := some (attemptPath "C:/rec" "r" ".mp4" 1),
         timelineResult := some { success := true }, error := none, warning := none }] :=
  ⟨⟨rfl, rfl, by decide⟩,
   (camera_attempt_success_classification (fun _ => some 5) { success := true }
     (Except.ok { success := true })
     { initState with kind := SessKind.cameraRegular, isRecording := true,
                      recordingProcess := true, dir := "C:/rec", base := "r",
                      ext := ".mp4", currentAttempt := 1 }
     5 rfl rfl rfl rfl rfl (by decide)).1⟩

/-- Claim C4 (counterexample): the claim says a second stop() made while
the first is still in progress is rejected or is a no-op. In the concrete
stopping state c4Stopping (isRecording and recordingProcess are unchanged
by the first stop), the second stopRecording call is accepted (returns
success) and arms an additional force-kill timer, so it is neither
rejected nor a no-op. -/
theorem second_stop_not_rejected_not_noop :
    ¬ (((stopStep (stopStep c4Stopping).1).2).success = false ∨
       (stopStep (stopStep c4Stopping).1).1 = (stopStep c4Stopping).1) := by
  decide

/-- Claim C4 (amended): a second stop() in immediate succession is
re-executed rather than rejected: both calls return success, neither
throws nor emits a completion by itself, the single-fire guard and the
recording flags are unchanged by the second call (same terminal effect),
and the only difference is one additional armed force-kill timer. -/
theorem second_stop_behavior (st : RecState)
    (hrec : st.isRecording = true) (hproc : st.recordingProcess = true) :
    ((stopStep st).2).success = true ∧
    ((stopStep (stopStep st).1).2).success = true ∧
    (stepEv st Ev.stopCall).2 = [] ∧
    (stopStep (stopStep st).1).1.forceKillTimers = st.forceKillTimers + 2 ∧
    (stopStep (stopStep st).1).1.timelineAdded = st.timelineAdded ∧
    (stopStep (stopStep st).1).1.isRecording = (stopStep st).1.isRecording ∧
    (stopStep (stopStep st).1).1.recordingProcess = (stopStep st).1.recordingProcess ∧
    (stopStep (stopStep st).1).1.currentRecordingPath = (stopStep st).1.currentRecordingPath := by
  by_cases hs : st.procShell = true
  · simp [stopStep, stepEv, hrec, hproc, hs]
  · simp at hs
    simp [stopStep, stepEv, hrec, hproc, hs]

theorem second_stop_behavior_witness :
    (c4Stopping.isRecording = true ∧ c4Stopping.recordingProcess = true) ∧
    (((stopStep c4Stopping).2).success = true ∧
     ((stopStep (stopStep c4Stopping).1).2).success = true ∧
     (stepEv c4Stopping Ev.stopCall).2 = [] ∧
     (stopStep (stopStep c4Stopping).1).1.forceKillTimers = c4Stopping.forceKillTimers + 2 ∧
     (stopStep (stopStep c4Stopping).1).1.timelineAdded = c4Stopping.timelineAdded ∧
     (stopStep (stopStep c4Stopping).1).1.isRecording = (stopStep c4Stopping).1.isRecording ∧
     (stopStep (stopStep c4Stopping).1).1.recordingProcess =
       (stopStep c4Stopping).1.recordingProcess ∧
     (stopStep (stopStep c4Stopping).1).1.currentRecordingPath =
       (stopStep c4Stopping).1.currentRecordingPath) :=
  ⟨⟨rfl, rfl⟩, second_stop_behavior c4Stopping rfl rfl⟩

/-- Claim C5 (counterexample): the claim says any clean process exit before
the deadline cancels the pending force-kill timer so that a delayed kill
never acts on a stale or reused process handle. In the concrete desktop
session, after stop() and a clean exit (code 0, valid file) the timer is
still armed (c5AfterCleanExit.forceKillTimers = 1, not 0), and when a new
recording is started inside the window the stale timer's expiry kills the
fresh session (isRecording and recordingProcess drop back to false). -/
theorem clean_exit_leaves_force_kill_armed :
    c5AfterCleanExit.forceKillTimers = 1 ∧
    c5Restarted.isRecording = true ∧
    c5Restarted.recordingProcess = true ∧
    c5AfterStaleKill.isRecording = false ∧
    c5AfterStaleKill.recordingProcess = false := by
  decide

/-- Claim C5 (amended): every accepted stop() arms a force-kill deadline of
3000 ms; at expiry an unkilled present process handle is killed and the
state reset. A clean exit through the non-camera close handler does not
cancel the armed timer (the handler leaves forceKillTimers untouched);
only the taskkill-success path (handleSuccessfulOBSKill, clearForceKill)
cancels it. The expired timer's own null-check makes it harmless only when
no process handle is present, so a recording started within the window is
killed by the stale timer. -/
theorem force_kill_deadline_behavior
    (st st2 st3 : RecState) (fsz : String → Option Nat) (tr : TimelineResult)
    (code : Option Int) (sig : Option Sig)
    (hrec : st.isRecording = true) (hproc : st.recordingProcess = true) :
    forceKillDelayMs = 3000 ∧
    (stopStep st).1.forceKillTimers = st.forceKillTimers + 1 ∧
    (0 < st2.forceKillTimers → st2.recordingProcess = true → st2.procKilled = false →
      (forceKillFire st2).isRecording = false ∧
      (forceKillFire st2).recordingProcess = false ∧
      (forceKillFire st2).procKilled = true ∧
      (forceKillFire st2).forceKillTimers = st2.forceKillTimers - 1) ∧
    (nonCameraClose fsz tr st3 code sig).1.forceKillTimers = st3.forceKillTimers ∧
    (0 < st3.forceKillTimers → (clearForceKill st3).forceKillTimers = st3.forceKillTimers - 1) := by
  refine ⟨rfl, ?_, ?_, ?_, ?_⟩
  · by_cases hs : st.procShell = true
    · simp [stopStep, hrec, hproc, hs]
    · simp at hs
      simp [stopStep, hrec, hproc, hs]
  · intro h1 h2 h3
    simp [forceKillFire, h1, h2, h3]
  · unfold nonCameraClose
    dsimp only
    split
    · rfl
    · split
      · split
        · split
          · rfl
          · rfl
        · rfl
      · rfl
  · intro h1
    simp [clearForceKill, h1]

theorem force_kill_deadline_behavior_witness :
    (c4Stopping.isRecording = true ∧ c4Stopping.recordingProcess = true) ∧
    (forceKillDelayMs = 3000 ∧
     (stopStep c4Stopping).1.forceKillTimers = c4Stopping.forceKillTimers + 1 ∧
     (0 < c5Stopped.forceKillTimers → c5Stopped.recordingProcess = true →
       c5Stopped.procKilled = false →
       (forceKillFire c5Stopped).isRecording = false ∧
       (forceKillFire c5Stopped).recordingProcess = false ∧
       (forceKillFire c5Stopped).procKilled = true ∧
       (forceKillFire c5Stopped).forceKillTimers = c5Stopped.forceKillTimers - 1) ∧
     (nonCameraClose (fun _ => some 4000) { success := true } c5Stopped (some 0) none).1.forceKillTimers =
       c5Stopped.forceKillTimers ∧
     (0 < c5Stopped.forceKillTimers →
       (clearForceKill c5Stopped).forceKillTimers = c5Stopped.forceKillTimers - 1)) :=
  ⟨⟨rfl, rfl⟩,
   force_kill_deadline_behavior c4Stopping c5Stopped c5Stopped (fun _ => some 4000)
     { success := true } (some 0) none rfl rfl⟩

/-- Claim C6: a start request made while a session is already live returns
a failure result carrying the already-recording error and leaves the whole
session state — including the live process flag, the recording flag and
the current recording path — byte-for-byte unchanged. -/
theorem start_while_recording_rejected (opts : RecOptions) (d b e : String)
    (st : RecState) (h : st.isRecording = true) :
    startRecordingStep opts d b e st =
      (st, { success := false, filePath := none, error := some alreadyRecordingMsg }) := by
  unfold startRecordingStep
  simp [h]

theorem start_while_recording_rejected_witness :
    c4Stopping.isRecording = true ∧
    startRecordingStep c1Opts "C:/rec" "x" ".mp4" c4Stopping =
      (c4Stopping,
       { success := false, filePath := none, error := some alreadyRecordingMsg }) :=
  ⟨rfl, start_while_recording_rejected c1Opts "C:/rec" "x" ".mp4" c4Stopping rfl⟩

/-- Claim C7: a region that passes the 16-pixel minimum-size check is
accepted with both dimensions floored to the nearest even number at most
the original (never increased, decreased by at most one), and a region
whose width or height is below 16 is rejected with the too-small error and
no rectangle is produced. -/
theorem region_validation_even_floor (r s : Rect)
    (hw : 16 ≤ r.width) (hh : 16 ≤ r.height)
    (hs : s.width < 16 ∨ s.height < 16) :
    (∃ v : Rect, validateRegionStep r = Except.ok v ∧
       v.width % 2 = 0 ∧ v.height % 2 = 0 ∧
       v.width ≤ r.width ∧ r.width < v.width + 2 ∧
       v.height ≤ r.height ∧ r.height < v.height + 2 ∧
       v.x = r.x ∧ v.y = r.y) ∧
    validateRegionStep s = Except.error (regionTooSmallMsg s.width s.height) := by
  constructor
  · refine ⟨{ x := r.x, y := r.y, width := r.width / 2 * 2, height := r.height / 2 * 2 }, ?_,
      ?_, ?_, ?_, ?_, ?_, ?_, rfl, rfl⟩
    · unfold validateRegionStep
      rw [if_neg]
      omega
    all_goals (dsimp only; omega)
  · unfold validateRegionStep
    rw [if_pos hs]

theorem region_validation_even_floor_witness :
    (16 ≤ (17 : Nat) ∧ 16 ≤ (31 : Nat) ∧ ((10 : Nat) < 16 ∨ (20 : Nat) < 16)) ∧
    ((∃ v : Rect,
        validateRegionStep { x := 3, y := 4, width := 17, height := 31 } = Except.ok v ∧
        v.width % 2 = 0 ∧ v.height % 2 = 0 ∧
        v.width ≤ 17 ∧ (17 : Nat) < v.width + 2 ∧
        v.height ≤ 31 ∧ (31 : Nat) < v.height + 2 ∧
        v.x = 3 ∧ v.y = 4) ∧
     validateRegionStep { x := 0, y := 0, width := 10, height := 20 } =
       Except.error (regionTooSmallMsg 10 20)) :=
  ⟨⟨by decide, by decide, by decide⟩,
   region_validation_even_floor { x := 3, y := 4, width := 17, height := 31 }
     { x := 0, y := 0, width := 10, height := 20 } (by decide) (by decide) (by decide)⟩

/-- Claim C8 (counterexample): the claim says the device name embedded in
the generated camera command is always the verbatim display name, never
the alternate identifier and with no characters removed. The camera-name
cleaning removes square brackets (and trims), and the audio-device naming
substitutes the alternate identifier when one is known, so neither name
survives verbatim. -/
theorem device_name_not_verbatim :
    cleanCameraNameFn "USB Camera [1080p]" ≠ "USB Camera [1080p]" ∧
    getCorrectAudioDeviceName
        [{ name := "Microphone (Realtek)", altName := some "@device_cm_realtek",
           isDefault := true }] "Microphone (Realtek)" ≠ "Microphone (Realtek)" := by
  decide

/-- Claim C8 (amended): the camera name is embedded after removing every
square bracket character and trimming surrounding whitespace, so a display
name free of brackets and padding passes through verbatim; the audio
device name on the shell path is replaced by the device's alternate
identifier whenever one is known and stays the display name otherwise. -/
theorem device_name_transformations
    (n : String)
    (hnb : n.data.all (fun c => c != '[' && c != ']') = true)
    (ht : jsTrim n = n)
    (devices : List AudioDevice) (dn : String) (d : AudioDevice)
    (hfind : devices.find? (fun x => x.name == dn) = some d) :
    cleanCameraNameFn n = n ∧
    (d.altName = none → getCorrectAudioDeviceName devices dn = dn) ∧
    (∀ a : String, d.altName = some a → getCorrectAudioDeviceName devices dn = a) := by
  refine ⟨?_, ?_, ?_⟩
  · unfold cleanCameraNameFn
    have hf : n.data.filter (fun c => c != '[' && c != ']') = n.data := by
      rw [List.filter_eq_self]
      intro a ha
      exact (List.all_eq_true.mp hnb) a ha
    rw [hf]
    have hmk : String.mk n.data = n := by
      cases n
      rfl
    rw [hmk, ht]
  · intro ha
    unfold getCorrectAudioDeviceName
    rw [hfind]
    dsimp only
    rw [ha]
  · intro a ha
    unfold getCorrectAudioDeviceName
    rw [hfind]
    dsimp only
    rw [ha]

theorem device_name_transformations_witness :
    (("USB Camera" : String).data.all (fun c => c != '[' && c != ']') = true ∧
     jsTrim "USB Camera" = "USB Camera" ∧
     ([{ name := "Mic", altName := none, isDefault := false }] :
         List AudioDevice).find? (fun x => x.name == "Mic") =
       some { name := "Mic", altName := none, isDefault := false }) ∧
    (cleanCameraNameFn "USB Camera" = "USB Camera" ∧
     (({ name := "Mic", altName := none, isDefault := false } : AudioDevice).altName = none →
       getCorrectAudioDeviceName [{ name := "Mic", altName := none, isDefault := false }]
         "Mic" = "Mic") ∧
     (∀ a : String,
       ({ name := "Mic", altName := none, isDefault := false } : AudioDevice).altName = some a →
       getCorrectAudioDeviceName [{ name := "Mic", altName := none, isDefault := false }]
         "Mic" = a)) :=
  ⟨⟨by decide, by decide, by decide⟩,
   device_name_transformations "USB Camera" (by decide) (by decide)
     [{ name := "Mic", altName := none, isDefault := false }] "Mic"
     { name := "Mic", altName := none, isDefault := false } (by decide)⟩

/-- Claim C9: a recording that completed successfully with a valid output
file is never downgraded by the timeline-integration collaborator: in the
camera stopped-with-valid-file path the completion carries success = true
with the (failed) timeline result attached; in the OBS stop path a
collaborator rejection still yields success = true plus the advisory
integration-failure error string; in the non-camera clean-exit path the
completion carries success = true with the (failed) timeline result
attached. -/
theorem timeline_failure_never_downgrades
    (tr : TimelineResult) (_htr : tr.success = false)
    (fsz : String → Option Nat) (st1 st2 st3 : RecState) (p emsg : String) (sz : Nat)
    (h1g : st1.timelineAdded = false)
    (h1p : st1.currentRecordingPath = some p)
    (h1f : fsz p = some sz) (h1sz : 1024 < sz) :
    (cameraAttemptClose fsz tr st1 (some 1) none).2 =
      [{ success := true, filePath := some p, timelineResult := some tr,
         error := none, warning := some "Camera recording stopped by user" }] ∧
    (st2.timelineAdded = false → st2.currentRecordingPath = some p →
      (processOBSRecording fsz (Except.error emsg) st2).2 =
        [{ success := true, filePath := some p, timelineResult := none,
           error := some "Recording completed but timeline integration failed",
           warning := none }]) ∧
    (st3.timelineAdded = false →
      (nonCameraClose fsz tr st3 (some 0) none).2 =
        [{ success := true, filePath := some (pathJoin st3.dir (st3.base ++ st3.ext)),
           timelineResult := some tr, error := none, warning := none }]) := by
  refine ⟨?_, ?_, ?_⟩
  · simp [cameraAttemptClose, wasManuallyStoppedB, wasStoppedB, fileLargerThan,
          h1p, h1f, h1sz, h1g]
  · intro h2g h2p
    simp [processOBSRecording, h2p, h1f, h1sz, h2g]
  · intro h3g
    simp [nonCameraClose, h3g]

theorem timeline_failure_never_downgrades_witness :
    (({ success := false, timelineName := none, createdNewTimeline := false,
        error := some "Failed to connect to DaVinci Resolve" } : TimelineResult).success =
       false ∧
     c4Stopping.timelineAdded = false ∧
     c4Stopping.currentRecordingPath = some (pathJoin "C:/rec" "a.mp4") ∧
     (1024 : Nat) < 2048) ∧
    (cameraAttemptClose (fun _ => some 2048)
        { success := false, timelineName := none, createdNewTimeline := false,
          error := some "Failed to connect to DaVinci Resolve" }
        c4Stopping (some 1) none).2 =
      [{ success := true, filePath := some (pathJoin "C:/rec" "a.mp4"),
         timelineResult := some
           { success := false, timelineName := none, createdNewTimeline := false,
             error := some "Failed to connect to DaVinci Resolve" },
         error := none, warning := some "Camera recording stopped by user" }] :=
  ⟨⟨rfl, rfl, rfl, by decide⟩,
   (timeline_failure_never_downgrades
     { success := false, timelineName := none, createdNewTimeline := false,
       error := some "Failed to connect to DaVinci Resolve" } rfl
     (fun _ => some 2048) c4Stopping c4Stopping c4Stopping
     (pathJoin "C:/rec" "a.mp4") "resolve unavailable" 2048
     rfl rfl rfl (by decide)).1⟩

/-- Claim C10: stopRecording's guard requires both the recording flag and
a non-null process handle, and for a regular (non-virtual) camera start
the function returns success and sets the recording flag synchronously
while the spawn waits on the asynchronous audio-device lookup, so a stop()
issued in that window is rejected with the no-recording-in-progress error
even though the session is live. -/
theorem stop_rejected_before_spawn (opts : RecOptions) (d b e : String) (st : RecState)
    (hIdle : st.isRecording = false)
    (hProc : st.recordingProcess = false)
    (hCam : opts.sourceType = SourceType.camera)
    (hReg : isObsVirtualName (cleanCameraNameFn opts.cameraName) = false) :
    ((startRecordingStep opts d b e st).2).success = true ∧
    (startRecordingStep opts d b e st).1.isRecording = true ∧
    (startRecordingStep opts d b e st).1.recordingProcess = false ∧
    (startRecordingStep opts d b e st).1.audioLookupPending = true ∧
    stopStep (startRecordingStep opts d b e st).1 =
      ((startRecordingStep opts d b e st).1,
       { success := false, error := some noRecordingMsg }) := by
  have hstart : startRecordingStep opts d b e st =
      ({ st with timelineAdded := false, dir := d, base := b, ext := e,
                 kind := SessKind.cameraRegular, audioLookupPending := true,
                 isRecording := true,
                 currentRecordingPath := some (pathJoin d (b ++ e)),
                 originalRecordingPath := some (pathJoin d (b ++ e)) },
       { success := true, filePath := some (pathJoin d (b ++ e)), error := none }) := by
    unfold startRecordingStep
    rw [if_neg (by simp [hIdle])]
    rw [hCam]
    dsimp only
    rw [if_neg (by simp [hReg])]
  rw [hstart]
  refine ⟨rfl, rfl, hProc, rfl, ?_⟩
  unfold stopStep
  rw [if_neg]
  simp [hProc]

theorem stop_rejected_before_spawn_witness :
    (initState.isRecording = false ∧ initState.recordingProcess = false ∧
     c1Opts.sourceType = SourceType.camera ∧
     isObsVirtualName (cleanCameraNameFn c1Opts.cameraName) = false) ∧
    (((startRecordingStep c1Opts "C:/rec" "screen-recording-t" ".mp4" initState).2).success =
       true ∧
     (startRecordingStep c1Opts "C:/rec" "screen-recording-t" ".mp4" initState).1.isRecording =
       true ∧
     (startRecordingStep c1Opts "C:/rec" "screen-recording-t" ".mp4"
         initState).1.recordingProcess = false ∧
     (startRecordingStep c1Opts "C:/rec" "screen-recording-t" ".mp4"
         initState).1.audioLookupPending = true ∧
     stopStep (startRecordingStep c1Opts "C:/rec" "screen-recording-t" ".mp4" initState).1 =
       ((startRecordingStep c1Opts "C:/rec" "screen-recording-t" ".mp4" initState).1,
        { success := false, error := some noRecordingMsg })) :=
  ⟨⟨rfl, rfl, rfl, by decide⟩,
   stop_rejected_before_spawn c1Opts "C:/rec" "screen-recording-t" ".mp4" initState
     rfl rfl rfl (by decide)⟩
